import Mathlib

/-!
Shallow embedding of the satellite research pipeline (repository
`cjbs_tool_v3`): the response-normalization / trace-mining / retry logic of
`basic.py` (`BasicInfoBot`) and `cost.py` (`CostBot`), and the keyed record
store of `data_manager.py` (`SatelliteDataManager`).

Python dicts are embedded as insertion-ordered association lists, strings as
`String` / `List Char`, machine-level string searching (`str.find`, slicing,
`in`, `startswith`, `strip`, `lower`) as executable functions on `List Char`,
and exceptions as `Except` / `Option` plumbing that mirrors the `try/except`
structure of the source.
-/

/-- A Python value stored in a record: the pipeline stores strings and (for
`launch_success` / `vehicle_reusability` in `cost.py`) small integers. -/
inductive Val where
  | s (str : String)
  | n (int : Int)
  deriving DecidableEq, Repr

/-- A Python dict with string keys, embedded as an insertion-ordered
association list (Python 3.7+ dicts preserve insertion order). -/
abbrev Record := List (String × Val)

/-- Dict lookup: `d.get(k)` / `d[k]`. Returns the first binding (dicts built
through `alSet` have unique keys). -/
def alGet? {α : Type} : List (String × α) → String → Option α
  | [], _ => none
  | (k, v) :: tl, key => if k = key then some v else alGet? tl key

/-- Dict assignment `d[k] = v`: updates the existing binding in place,
otherwise appends a new binding at the end (Python insertion order). -/
def alSet {α : Type} : List (String × α) → String → α → List (String × α)
  | [], key, v => [(key, v)]
  | (k, w) :: tl, key, v => if k = key then (k, v) :: tl else (k, w) :: alSet tl key v

/-- Dict deletion `del d[k]`: removes the (unique) binding for `k`. -/
def alDel {α : Type} : List (String × α) → String → List (String × α)
  | [], _ => []
  | (k, w) :: tl, key => if k = key then tl else (k, w) :: alDel tl key

/-- The backtick character, head of the markdown code-fence markers. -/
def btick : Char := Char.ofNat 96

/-- The `{` character (JSON object opener). -/
def lbrace : Char := Char.ofNat 123

/-- The `}` character (JSON object closer). -/
def rbrace : Char := Char.ofNat 125

/-- Python whitespace (`str.strip` / `\s` / `\S`): space, tab, newline,
carriage return, vertical tab, form feed. -/
def isSpaceC (c : Char) : Bool :=
  c = ' ' || c = '\t' || c = '\n' || c = '\r' || c.toNat = 11 || c.toNat = 12

/-- Python `str.lower()` (ASCII, which is all the triggers use). -/
def toLowerL (cs : List Char) : List Char := cs.map Char.toLower

/-- Python `str.strip()`: drop leading and trailing whitespace. -/
def stripL (cs : List Char) : List Char :=
  ((cs.dropWhile isSpaceC).reverse.dropWhile isSpaceC).reverse

/-- Python `haystack.find(needle)`: index of the first occurrence of `pat`,
`none` for Python's `-1`. -/
def findSub (pat : List Char) : List Char → Option Nat
  | [] => if pat.isPrefixOf ([] : List Char) then some 0 else none
  | c :: tl => if pat.isPrefixOf (c :: tl) then some 0 else (findSub pat tl).map (· + 1)

/-- Python `haystack.find(needle, start)`. -/
def pyFindFrom (cs pat : List Char) (start : Nat) : Option Nat :=
  (findSub pat (cs.drop start)).map (· + start)

/-- Python `needle in haystack` (substring containment). -/
def containsSub (cs pat : List Char) : Bool := (findSub pat cs).isSome

/-- Python slice `s[start:stop]` where `stop` may be negative (`-1` arises in
the source when the closing fence is missing: `find` returned `-1`). -/
def pySlice (cs : List Char) (start : Nat) (stop : Int) : List Char :=
  let stopN : Nat := if stop < 0 then ((cs.length : Int) + stop).toNat else stop.toNat
  (cs.take stopN).drop start

/-- Python `str.startswith(pat)`. -/
def pyStartsWith (cs pat : List Char) : Bool := pat.isPrefixOf cs

/-- Skip leading JSON whitespace. -/
def skipWs (cs : List Char) : List Char := cs.dropWhile isSpaceC

/-- Parse one JSON string literal (no escape sequences: the fragment the
claims exercise): `"body"` followed by the rest. -/
def parseJStr : List Char → Option (String × List Char)
  | '"' :: rest =>
      let body := rest.takeWhile (fun c => !(c = '"'))
      match rest.drop body.length with
      | '"' :: rest2 => some (String.mk body, rest2)
      | _ => none
  | _ => none

/-- Parse the comma-separated `"key": "value"` pairs of a flat JSON object,
accumulating into a record (`alSet`, so duplicate keys keep the last value as
`json.loads` does); requires the closing brace and then end of input. -/
def jsonPairs : Nat → List Char → Record → Option Record
  | 0, _, _ => none
  | fuel + 1, cs, acc =>
    match parseJStr (skipWs cs) with
    | none => none
    | some (k, r1) =>
      match skipWs r1 with
      | ':' :: r2 =>
        match parseJStr (skipWs r2) with
        | none => none
        | some (v, r3) =>
          let acc2 := alSet acc k (Val.s v)
          match skipWs r3 with
          | ',' :: r4 => jsonPairs fuel r4 acc2
          | e :: r4 => if e = rbrace && (skipWs r4).isEmpty then some acc2 else none
          | [] => none
      | _ => none

/-- Model of Python `json.loads` restricted to flat objects with string keys
and string values — the JSON fragment the pipeline's claims exercise.  Any
other input is a parse failure (`none`), standing for `json.JSONDecodeError`. -/
def jsonLoadsFlat (cs : List Char) : Option Record :=
  match skipWs cs with
  | [] => none
  | c :: rest =>
    if c = lbrace then
      match skipWs rest with
      | [] => none
      | d :: rest2 =>
        if d = rbrace then (if (skipWs rest2).isEmpty then some [] else none)
        else jsonPairs (cs.length + 1) (d :: rest2) []
    else none

/-- The message of a `json.JSONDecodeError`, as seen by the surrounding
`except Exception` handler via `str(e)`; it contains none of the substrings
(`"maximum iterations"`, `"timeout"`, `"execution time"`) that handler
classifies on. -/
def jsonDecodeErrMsg : String := "Expecting value: line 1 column 1 (char 0)"

/-- One observation in an intermediate step: either a Python `str` or some
other object (`hasattr(observation, 'lower') and isinstance(observation, str)`
fails for the latter, so it is skipped by the mining loops). -/
inductive Obs where
  | txt (s : String)
  | nonStr
  deriving DecidableEq, Repr

/-- One element of `intermediate_steps`.  `pair` is the expected
`(action, observation)` tuple; `short` is a sized object with fewer than two
elements (skipped by the `len(step) >= 2` guard); `unsized` is an object on
which `len(step)` raises `TypeError`, the concrete exception source inside the
mining loops. -/
inductive Step where
  | pair (action : String) (obs : Obs)
  | short
  | unsized
  deriving DecidableEq, Repr

/-- Outcome of one `self.agent.invoke(...)` call: it raised (message
`msg`), returned a dict carrying `output` and `intermediate_steps`, or
returned a non-dict value (passed through by `_process_with_retry` and
replaced by the all-`"NA"` default in `process_satellite`). -/
inductive AgentOutcome where
  | raised (msg : String)
  | returnedDict (output : String) (steps : List Step)
  | returnedOther
  deriving DecidableEq, Repr

/-- Value returned by `_process_with_retry`: a dict, or the non-dict
response passed through by `return response`. -/
inductive PyVal where
  | dict (r : Record)
  | other
  deriving DecidableEq, Repr

/-- Model of `re.search(r'\$[\d,]+(?:\.\d+)?', s)` tried at one position:
a dollar sign, then one or more digits or commas (greedy), then optionally a
dot followed by one or more digits. -/
def moneyAt (cs : List Char) : Option (List Char) :=
  match cs with
  | '$' :: rest =>
      let ds := rest.takeWhile (fun c => c.isDigit || c = ',')
      if ds.isEmpty then none
      else
        match rest.drop ds.length with
        | '.' :: r3 =>
            let fs := r3.takeWhile Char.isDigit
            if fs.isEmpty then some ('$' :: ds) else some ('$' :: ds ++ '.' :: fs)
        | _ => some ('$' :: ds)
  | _ => none

/-- Model of `re.search(r'\$[\d,]+(?:\.\d+)?', s)`: scan left to right for the
first position where the pattern matches, returning the matched text. -/
def searchMoney : List Char → Option (List Char)
  | [] => none
  | c :: rest =>
    match moneyAt (c :: rest) with
    | some m => some m
    | none => searchMoney rest

/-- Model of `re.search(key + r'[:\s]+([^\.;\n]+)', s).group(1)`: after the
first occurrence of `key` followed by at least one colon/whitespace
character, the (greedy) run of characters other than `.`, `;`, `\n`.  The
regex's backtracking inside the separator run is not modelled: on inputs
where a nonempty group follows the separator (all inputs used here) the two
coincide. -/
def findKeyGroup (key : List Char) : List Char → Option (List Char)
  | [] => none
  | c :: rest =>
    if key.isPrefixOf (c :: rest) then
      let after := (c :: rest).drop key.length
      let sep := after.takeWhile (fun ch => ch = ':' || isSpaceC ch)
      if sep.isEmpty then findKeyGroup key rest
      else
        let body := (after.drop sep.length).takeWhile
          (fun ch => !(ch = '.' || ch = ';' || ch = '\n'))
        if body.isEmpty then findKeyGroup key rest
        else some body
    else findKeyGroup key rest

/-- Model of `re.search(r'https?://\S+', s)` tried at one position. -/
def urlAt (cs : List Char) : Option (List Char) :=
  if "https://".data.isPrefixOf cs then
    let body := (cs.drop 8).takeWhile (fun c => !(isSpaceC c))
    if body.isEmpty then none else some ("https://".data ++ body)
  else if "http://".data.isPrefixOf cs then
    let body := (cs.drop 7).takeWhile (fun c => !(isSpaceC c))
    if body.isEmpty then none else some ("http://".data ++ body)
  else none

/-- Model of `re.search(r'https?://\S+', s)`: first match, scanning left to
right. -/
def searchUrl : List Char → Option (List Char)
  | [] => none
  | c :: rest =>
    match urlAt (c :: rest) with
    | some m => some m
    | none => searchUrl rest

/-- The eight field names of the basic-info response schema
(`BasicInfoBot._initialize_schema`). -/
def basicFieldNames : List String :=
  ["altitude", "altitude_source", "orbital_life_years", "orbital_life_source",
   "launch_orbit_classification", "orbit_classification_source",
   "number_of_payloads", "payloads_source"]

/-- Model of the langchain `StructuredOutputParser.parse` call at
`basic.py:206` / `cost.py:213` (library code, modelled from its documented
behaviour): extract the first triple-backtick fenced block (with an optional
`json` tag), `json.loads` it, and check that every expected schema key is
present; any failure is the exception the caller catches. -/
def structuredParse (fields : List String) (out : List Char) : Option Record :=
  match findSub "```".data out with
  | none => none
  | some i =>
    let rest := out.drop (i + 3)
    let rest2 := if "json".data.isPrefixOf rest then rest.drop 4 else rest
    match findSub "```".data rest2 with
    | none => none
    | some j =>
      match jsonLoadsFlat (stripL (rest2.take j)) with
      | none => none
      | some r => if fields.all (fun f => (alGet? r f).isSome) then some r else none

/-- The initial all-`"NA"` dict of `BasicInfoBot._extract_data_from_steps`
(basic.py lines 233-242). -/
def basicExtractInit : Record :=
  [("altitude", Val.s "NA"), ("altitude_source", Val.s "NA"),
   ("orbital_life_years", Val.s "NA"), ("orbital_life_source", Val.s "NA"),
   ("launch_orbit_classification", Val.s "NA"), ("orbit_classification_source", Val.s "NA"),
   ("number_of_payloads", Val.s "NA"), ("payloads_source", Val.s "NA")]

/-- `BasicInfoBot._create_fallback_response` (basic.py lines 269-280): an
all-`"NA"` record; note the source ignores both its `error_reason` and
`satellite_name` arguments — in particular no `error` key is added. -/
def basic_create_fallback_response (error_reason satellite_name : String) : Record :=
  [("altitude", Val.s "NA"), ("altitude_source", Val.s "NA"),
   ("orbital_life_years", Val.s "NA"), ("orbital_life_source", Val.s "NA"),
   ("launch_orbit_classification", Val.s "NA"), ("orbit_classification_source", Val.s "NA"),
   ("number_of_payloads", Val.s "NA"), ("payloads_source", Val.s "NA")]

/-- The body of the per-observation mining rules of
`BasicInfoBot._extract_data_from_steps` (basic.py lines 252-260): fill
`altitude` with `"Partial"` if the lowered observation mentions altitude or
km and the field is still `"NA"`; likewise `launch_orbit_classification` for
orbit keywords. -/
def basicMineStep (r : Record) (obs : List Char) : Record :=
  let ol := toLowerL obs
  let r1 :=
    if containsSub ol "altitude".data || containsSub ol "km".data then
      (if alGet? r "altitude" = some (Val.s "NA")
       then alSet r "altitude" (Val.s "Partial") else r)
    else r
  if ["leo", "meo", "geo", "orbit"].any (fun t => containsSub ol t.data) then
    (if alGet? r1 "launch_orbit_classification" = some (Val.s "NA")
     then alSet r1 "launch_orbit_classification" (Val.s "Partial") else r1)
  else r1

/-- The `for step in intermediate_steps` loop of
`BasicInfoBot._extract_data_from_steps`: steps are processed in order; a step
on which `len` raises aborts the loop, the surrounding `except` swallows the
exception, and the function returns the data extracted so far. -/
def basicExtractLoop : Record → List Step → Record
  | r, [] => r
  | r, Step.unsized :: _ => r
  | r, Step.short :: tl => basicExtractLoop r tl
  | r, Step.pair _ Obs.nonStr :: tl => basicExtractLoop r tl
  | r, Step.pair _ (Obs.txt s) :: tl => basicExtractLoop (basicMineStep r s.data) tl

/-- `BasicInfoBot._extract_data_from_steps` (basic.py lines 231-267). -/
def basic_extract_data_from_steps (steps : List Step) (satellite_name : String) : Record :=
  basicExtractLoop basicExtractInit steps

/-- The `json_str = output[json_start:json_end].strip()` computation of the
fenced-block branch (basic.py lines 192-195 / cost.py lines 199-202). -/
def extractFencedJson (out : List Char) : List Char :=
  let jsonStart := ((findSub "```json".data out).getD 0) + 7
  let jsonEnd : Int :=
    match pyFindFrom out "```".data jsonStart with
    | some j => (j : Int)
    | none => -1
  stripL (pySlice out jsonStart jsonEnd)

/-- The `isinstance(response, dict)` branch of `BasicInfoBot._process_with_retry`
(basic.py lines 180-213), in source branch order: iteration-cap check, fenced
`json` block, direct-JSON string, structured parser, mining over nonempty
steps, fallback.  A `json.loads` failure in the fenced branch propagates
(`Except.error`) to the function's `except` handler. -/
def basicHandleResponse (output : String) (steps : List Step) (satellite_name : String) :
    Except String PyVal :=
  if 10 ≤ steps.length then
    Except.ok (PyVal.dict (basic_extract_data_from_steps steps satellite_name))
  else if containsSub output.data "```json".data then
    match jsonLoadsFlat (extractFencedJson output.data) with
    | some r => Except.ok (PyVal.dict r)
    | none => Except.error jsonDecodeErrMsg
  else if pyStartsWith output.data [lbrace] then
    match jsonLoadsFlat output.data with
    | some r => Except.ok (PyVal.dict r)
    | none =>
      match structuredParse basicFieldNames output.data with
      | some r => Except.ok (PyVal.dict r)
      | none =>
        if steps.isEmpty then
          Except.ok (PyVal.dict (basic_create_fallback_response "Parsing failed" satellite_name))
        else Except.ok (PyVal.dict (basic_extract_data_from_steps steps satellite_name))
  else
    match structuredParse basicFieldNames output.data with
    | some r => Except.ok (PyVal.dict r)
    | none =>
      if steps.isEmpty then
        Except.ok (PyVal.dict (basic_create_fallback_response "Parsing failed" satellite_name))
      else Except.ok (PyVal.dict (basic_extract_data_from_steps steps satellite_name))

/-- The `try:` block of `BasicInfoBot._process_with_retry` (basic.py lines
174-215): an exception raised by `agent.invoke` propagates (`Except.error`)
to the `except` handler; a dict response goes through the normal processing
above; a non-dict response is returned as-is. -/
def basicTryBody (outcome : AgentOutcome) (satellite_name : String) : Except String PyVal :=
  match outcome with
  | AgentOutcome.raised msg => Except.error msg
  | AgentOutcome.returnedOther => Except.ok PyVal.other
  | AgentOutcome.returnedDict output steps => basicHandleResponse output steps satellite_name

/-- The `except Exception as e:` handler of `BasicInfoBot._process_with_retry`
(basic.py lines 217-229): substring-classify the message and return a
fallback record (which, in basic.py, is all-`"NA"` in every case). -/
def basicExceptHandler (msg satellite_name : String) : Record :=
  let ml := toLowerL msg.data
  if containsSub ml "maximum iterations".data then
    basic_create_fallback_response "Max iterations reached" satellite_name
  else if containsSub ml "timeout".data || containsSub ml "execution time".data then
    basic_create_fallback_response "Execution timeout" satellite_name
  else
    basic_create_fallback_response ("Error: " ++ msg) satellite_name

/-- One (undecorated) call of `BasicInfoBot._process_with_retry`: the `try`
body with its `except Exception` handler wrapped around it.  The result stays
`Except`-typed to mirror the pipeline boundary; that it is always `ok` is a
theorem, not a typing assumption. -/
def basic_process_with_retry (outcome : AgentOutcome) (satellite_name : String) :
    Except String PyVal :=
  match basicTryBody outcome satellite_name with
  | Except.ok v => Except.ok v
  | Except.error msg => Except.ok (PyVal.dict (basicExceptHandler msg satellite_name))

/-- Model of the `tenacity.retry` wrapper (`stop=stop_after_attempt n`,
`reraise=True`): call `f` for attempt indices `i, i+1, ...`; stop on the
first non-raising call or after the attempt budget is exhausted, re-raising
the last error.  Returns the result together with the number of calls made. -/
def tenacityRunAux {α : Type} (f : Nat → Except String α) : Nat → Nat → Except String α × Nat
  | i, 0 => (f i, i + 1)
  | i, 1 => (f i, i + 1)
  | i, n + 2 =>
    match f i with
    | Except.ok a => (Except.ok a, i + 1)
    | Except.error _ => tenacityRunAux f (i + 1) (n + 1)

/-- The decorated `_process_with_retry` of `BasicInfoBot`
(`stop_after_attempt(5)`), driven by the per-attempt agent outcomes. -/
def basicRetryRun (agent : Nat → AgentOutcome) (satellite_name : String) :
    Except String PyVal × Nat :=
  tenacityRunAux (fun i => basic_process_with_retry (agent i) satellite_name) 0 5

/-- Number of `_process_with_retry` invocation attempts the basic pipeline
makes (each attempt performs exactly one `agent.invoke` call). -/
def basicAttempts (agent : Nat → AgentOutcome) (satellite_name : String) : Nat :=
  (basicRetryRun agent satellite_name).2

/-- The `isinstance(parsed_output, dict)` replacement of
`BasicInfoBot.process_satellite` (basic.py lines 291-301). -/
def basicEnsureDict : PyVal → Record
  | PyVal.dict r => r
  | PyVal.other =>
      [("altitude", Val.s "NA"), ("altitude_source", Val.s "NA"),
       ("orbital_life_years", Val.s "NA"), ("orbital_life_source", Val.s "NA"),
       ("launch_orbit_classification", Val.s "NA"), ("orbit_classification_source", Val.s "NA"),
       ("number_of_payloads", Val.s "NA"), ("payloads_source", Val.s "NA")]

/-- The error structure of `BasicInfoBot.process_satellite`'s own `except`
clause (basic.py lines 314-324): `satellite_name` first, then all-`"NA"`. -/
def basicErrorStructure (satellite_name : String) : Record :=
  [("satellite_name", Val.s satellite_name),
   ("altitude", Val.s "NA"), ("altitude_source", Val.s "NA"),
   ("orbital_life_years", Val.s "NA"), ("orbital_life_source", Val.s "NA"),
   ("launch_orbit_classification", Val.s "NA"), ("orbit_classification_source", Val.s "NA"),
   ("number_of_payloads", Val.s "NA"), ("payloads_source", Val.s "NA")]

/-- `BasicInfoBot.process_satellite` (basic.py lines 282-324): run the
retry-wrapped processing, coerce a non-dict result to the all-`"NA"` default,
stamp `satellite_name`, and convert any escaping exception into the error
structure.  `Except`-valued to make `never raises` a provable statement. -/
def basic_process_satellite (agent : Nat → AgentOutcome) (satellite_name : String) :
    Except String Record :=
  match (basicRetryRun agent satellite_name).1 with
  | Except.error _ => Except.ok (basicErrorStructure satellite_name)
  | Except.ok v =>
      Except.ok (alSet (basicEnsureDict v) "satellite_name" (Val.s satellite_name))

/-- The seventeen field names of the cost response schema
(`CostBot._initialize_schema`). -/
def costFieldNames : List String :=
  ["launch_cost", "launch_cost_source", "launch_vehicle", "launch_vehicle_source",
   "launch_date", "launch_date_source", "launch_site", "launch_site_source",
   "launch_mass", "launch_mass_source", "launch_success", "launch_success_source",
   "vehicle_reusability", "reusability_details", "reusability_source",
   "mission_cost", "mission_cost_source"]

/-- The initial all-`"NA"` dict of `CostBot._extract_data_from_steps`
(cost.py lines 240-258). -/
def costExtractInit : Record :=
  [("launch_cost", Val.s "NA"), ("launch_cost_source", Val.s "NA"),
   ("launch_vehicle", Val.s "NA"), ("launch_vehicle_source", Val.s "NA"),
   ("launch_date", Val.s "NA"), ("launch_date_source", Val.s "NA"),
   ("launch_site", Val.s "NA"), ("launch_site_source", Val.s "NA"),
   ("launch_mass", Val.s "NA"), ("launch_mass_source", Val.s "NA"),
   ("launch_success", Val.s "NA"), ("launch_success_source", Val.s "NA"),
   ("vehicle_reusability", Val.s "NA"), ("reusability_details", Val.s "NA"),
   ("reusability_source", Val.s "NA"),
   ("mission_cost", Val.s "NA"), ("mission_cost_source", Val.s "NA")]

/-- `CostBot._create_fallback_response` (cost.py lines 324-345): all-`"NA"`
plus an `error` key carrying the failure reason (unlike basic.py, which drops
the reason). -/
def cost_create_fallback_response (error_reason satellite_name : String) : Record :=
  costExtractInit ++ [("error", Val.s error_reason)]

/-- The ordered source-URL slots of cost.py's URL round-robin assignment
(cost.py line 315). -/
def costSourceFields : List String :=
  ["launch_cost_source", "launch_vehicle_source", "launch_date_source",
   "launch_site_source", "launch_mass_source", "launch_success_source",
   "reusability_source", "mission_cost_source"]

/-- The `for field in [...]: if extracted_data[field] == "NA": ...; break`
loop assigning a discovered URL to the first still-`"NA"` source slot
(cost.py lines 314-318). -/
def costUrlAssign (r : Record) (u : List Char) : List String → Record
  | [] => r
  | f :: tl =>
    if alGet? r f = some (Val.s "NA") then alSet r f (Val.s (String.mk u))
    else costUrlAssign r u tl

/-- The per-observation mining rules of `CostBot._extract_data_from_steps`
(cost.py lines 264-318), applied in source order.  Note that the value-field
rules assign unconditionally (no `== "NA"` guard), so a later matching
observation overwrites an earlier value; only the URL slots check `"NA"`. -/
def costMineStep (r : Record) (obs : List Char) : Record :=
  let ol := toLowerL obs
  let r1 :=
    if containsSub ol "launch cost".data && containsSub obs "$".data then
      match searchMoney obs with
      | some m => alSet r "launch_cost" (Val.s (String.mk m))
      | none => r
    else r
  let r2 :=
    if containsSub ol "launch vehicle".data then
      match findKeyGroup "launch vehicle".data ol with
      | some g => alSet r1 "launch_vehicle" (Val.s (String.mk (stripL g)))
      | none => r1
    else r1
  let r3 :=
    if containsSub ol "launch date".data then
      match findKeyGroup "launch date".data ol with
      | some g => alSet r2 "launch_date" (Val.s (String.mk (stripL g)))
      | none => r2
    else r2
  let r4 :=
    if containsSub ol "launch site".data then
      match findKeyGroup "launch site".data ol with
      | some g => alSet r3 "launch_site" (Val.s (String.mk (stripL g)))
      | none => r3
    else r3
  let r5 :=
    if containsSub ol "launch mass".data then
      match findKeyGroup "launch mass".data ol with
      | some g => alSet r4 "launch_mass" (Val.s (String.mk (stripL g)))
      | none => r4
    else r4
  let r6 :=
    if containsSub ol "launch success".data then
      (if containsSub ol "success".data then alSet r5 "launch_success" (Val.n 1)
       else if containsSub ol "fail".data then alSet r5 "launch_success" (Val.n 0)
       else r5)
    else r5
  let r7 :=
    if containsSub ol "reusab".data then
      (if containsSub ol "reusable".data then alSet r6 "vehicle_reusability" (Val.n 1)
       else if containsSub ol "not reusable".data || containsSub ol "expendable".data then
         alSet r6 "vehicle_reusability" (Val.n 0)
       else r6)
    else r6
  let r8 :=
    if containsSub ol "reusab".data then
      alSet r7 "reusability_details" (Val.s (String.mk (stripL obs)))
    else r7
  let r9 :=
    if containsSub ol "mission cost".data then
      match findKeyGroup "mission cost".data ol with
      | some g => alSet r8 "mission_cost" (Val.s (String.mk (stripL g)))
      | none => r8
    else r8
  match searchUrl obs with
  | some u => costUrlAssign r9 u costSourceFields
  | none => r9

/-- The `for step in intermediate_steps` loop of
`CostBot._extract_data_from_steps`; `none` means an exception escaped the
loop (a step on which `len` raises), to be caught by the surrounding
`except`. -/
def costExtractLoop : Record → List Step → Option Record
  | r, [] => some r
  | _, Step.unsized :: _ => none
  | r, Step.short :: tl => costExtractLoop r tl
  | r, Step.pair _ Obs.nonStr :: tl => costExtractLoop r tl
  | r, Step.pair _ (Obs.txt s) :: tl => costExtractLoop (costMineStep r s.data) tl

/-- `CostBot._extract_data_from_steps` (cost.py lines 238-322): the whole
loop sits in a `try`; an exception degrades to the fallback annotated with
`"Data extraction failed"`. -/
def cost_extract_data_from_steps (steps : List Step) (satellite_name : String) : Record :=
  match costExtractLoop costExtractInit steps with
  | some r => r
  | none => cost_create_fallback_response "Data extraction failed" satellite_name

/-- The `isinstance(response, dict)` branch of `CostBot._process_with_retry`
(cost.py lines 187-220), structured exactly like basic.py's. -/
def costHandleResponse (output : String) (steps : List Step) (satellite_name : String) :
    Except String PyVal :=
  if 10 ≤ steps.length then
    Except.ok (PyVal.dict (cost_extract_data_from_steps steps satellite_name))
  else if containsSub output.data "```json".data then
    match jsonLoadsFlat (extractFencedJson output.data) with
    | some r => Except.ok (PyVal.dict r)
    | none => Except.error jsonDecodeErrMsg
  else if pyStartsWith output.data [lbrace] then
    match jsonLoadsFlat output.data with
    | some r => Except.ok (PyVal.dict r)
    | none =>
      match structuredParse costFieldNames output.data with
      | some r => Except.ok (PyVal.dict r)
      | none =>
        if steps.isEmpty then
          Except.ok (PyVal.dict (cost_create_fallback_response "Parsing failed" satellite_name))
        else Except.ok (PyVal.dict (cost_extract_data_from_steps steps satellite_name))
  else
    match structuredParse costFieldNames output.data with
    | some r => Except.ok (PyVal.dict r)
    | none =>
      if steps.isEmpty then
        Except.ok (PyVal.dict (cost_create_fallback_response "Parsing failed" satellite_name))
      else Except.ok (PyVal.dict (cost_extract_data_from_steps steps satellite_name))

/-- The `try:` block of `CostBot._process_with_retry` (cost.py lines
181-222), structured exactly like basic.py's. -/
def costTryBody (outcome : AgentOutcome) (satellite_name : String) : Except String PyVal :=
  match outcome with
  | AgentOutcome.raised msg => Except.error msg
  | AgentOutcome.returnedOther => Except.ok PyVal.other
  | AgentOutcome.returnedDict output steps => costHandleResponse output steps satellite_name

/-- The `except Exception as e:` handler of `CostBot._process_with_retry`
(cost.py lines 224-236). -/
def costExceptHandler (msg satellite_name : String) : Record :=
  let ml := toLowerL msg.data
  if containsSub ml "maximum iterations".data then
    cost_create_fallback_response "Max iterations reached" satellite_name
  else if containsSub ml "timeout".data || containsSub ml "execution time".data then
    cost_create_fallback_response "Execution timeout" satellite_name
  else
    cost_create_fallback_response ("Error: " ++ msg) satellite_name

/-- One (undecorated) call of `CostBot._process_with_retry`. -/
def cost_process_with_retry (outcome : AgentOutcome) (satellite_name : String) :
    Except String PyVal :=
  match costTryBody outcome satellite_name with
  | Except.ok v => Except.ok v
  | Except.error msg => Except.ok (PyVal.dict (costExceptHandler msg satellite_name))

/-- The decorated `_process_with_retry` of `CostBot`
(`stop_after_attempt(3)`). -/
def costRetryRun (agent : Nat → AgentOutcome) (satellite_name : String) :
    Except String PyVal × Nat :=
  tenacityRunAux (fun i => cost_process_with_retry (agent i) satellite_name) 0 3

/-- The `isinstance(parsed_output, dict)` replacement of
`CostBot.process_satellite` (cost.py lines 356-375). -/
def costEnsureDict : PyVal → Record
  | PyVal.dict r => r
  | PyVal.other => costExtractInit

/-- The error structure of `CostBot.process_satellite`'s own `except` clause
(cost.py lines 388-407): `satellite_name` first, then all-`"NA"`. -/
def costErrorStructure (satellite_name : String) : Record :=
  ("satellite_name", Val.s satellite_name) :: costExtractInit

/-- `CostBot.process_satellite` (cost.py lines 347-407). -/
def cost_process_satellite (agent : Nat → AgentOutcome) (satellite_name : String) :
    Except String Record :=
  match (costRetryRun agent satellite_name).1 with
  | Except.error _ => Except.ok (costErrorStructure satellite_name)
  | Except.ok v =>
      Except.ok (alSet (costEnsureDict v) "satellite_name" (Val.s satellite_name))

/-- One stored section: `{"data": record, "last_updated": iso-timestamp}`
(data_manager.py lines 28-31). -/
structure Entry where
  data : Record
  last_updated : String
  deriving DecidableEq, Repr

/-- The per-satellite dict: topic (`data_type`) to entry. -/
abbrev TopicMap := List (String × Entry)

/-- The in-memory store `self.data`: satellite name to per-topic dict.
File persistence (`save_data` / `load_data`) is I/O glue outside the state
transition itself. -/
abbrev Store := List (String × TopicMap)

/-- The result of `SatelliteDataManager.get_satellite_data`: Python `None`,
the whole per-satellite dict, or one section entry (`.get` may itself yield
`None`, which is the same `none`). -/
inductive GetResult where
  | none
  | whole (m : TopicMap)
  | entry (e : Entry)
  deriving DecidableEq, Repr

/-- `SatelliteDataManager.append_satellite_data` (data_manager.py lines
23-32): create the satellite's dict if absent, then assign the section.  The
timestamp (`datetime.now().isoformat()`) is passed in explicitly. -/
def append_satellite_data (s : Store) (satellite_name data_type : String)
    (d : Record) (now : String) : Store :=
  let s1 := if (alGet? s satellite_name).isSome then s else alSet s satellite_name []
  let m := (alGet? s1 satellite_name).getD []
  alSet s1 satellite_name (alSet m data_type ⟨d, now⟩)

/-- `SatelliteDataManager.get_satellite_data` (data_manager.py lines 34-41).
`data_type` is optional with default `None`; the source's `if data_type:`
tests Python truthiness, so an empty string also selects the whole dict.
The source performs no mutation, so the embedding returns no new store. -/
def get_satellite_data (s : Store) (satellite_name : String)
    (data_type : Option String) : GetResult :=
  match alGet? s satellite_name with
  | Option.none => GetResult.none
  | some m =>
    match data_type with
    | Option.none => GetResult.whole m
    | some t =>
      if t = "" then GetResult.whole m
      else
        match alGet? m t with
        | some e => GetResult.entry e
        | Option.none => GetResult.none

/-- `SatelliteDataManager.get_all_satellites` (data_manager.py lines 43-45):
`list(self.data.keys())`. -/
def get_all_satellites (s : Store) : List String := s.map Prod.fst

/-- `SatelliteDataManager.delete_satellite_section` (data_manager.py lines
55-64): delete one section; if the satellite's dict becomes empty, delete
the satellite entirely.  Returns the new store and the boolean result.
(The source names the section parameter `section`, a Lean keyword, hence
`sec`.) -/
def delete_satellite_section (s : Store) (satellite_name sec : String) :
    Store × Bool :=
  match alGet? s satellite_name with
  | Option.none => (s, false)
  | some m =>
    if (alGet? m sec).isSome then
      let m2 := alDel m sec
      let s2 := if m2.isEmpty then alDel s satellite_name
                else alSet s satellite_name m2
      (s2, true)
    else (s, false)

theorem alGet?_alSet_self {α : Type} (l : List (String × α)) (k : String) (v : α) :
    alGet? (alSet l k v) k = some v := by
  induction l with
  | nil => simp [alSet, alGet?]
  | cons hd tl ih =>
    obtain ⟨k0, v0⟩ := hd
    by_cases h : k0 = k
    · simp [alSet, alGet?, h]
    · simp [alSet, alGet?, h, ih]

theorem alGet?_alSet_ne {α : Type} (l : List (String × α)) (k k2 : String) (v : α)
    (h : k ≠ k2) : alGet? (alSet l k v) k2 = alGet? l k2 := by
  induction l with
  | nil => simp [alSet, alGet?, h]
  | cons hd tl ih =>
    obtain ⟨k0, v0⟩ := hd
    by_cases h0 : k0 = k
    · subst h0
      simp [alSet, alGet?, h]
    · simp [alSet, alGet?, h0, ih]

theorem not_mem_keys_alDel {α : Type} (l : List (String × α)) (k : String)
    (hnd : (l.map Prod.fst).Nodup) : k ∉ (alDel l k).map Prod.fst := by
  induction l with
  | nil => simp [alDel]
  | cons hd tl ih =>
    obtain ⟨k0, v0⟩ := hd
    simp only [List.map_cons, List.nodup_cons] at hnd
    by_cases h0 : k0 = k
    · subst h0
      simpa [alDel] using hnd.1
    · simp only [alDel, if_neg h0, List.map_cons, List.mem_cons]
      rintro (h | h)
      · exact h0 h.symm
      · exact ih hnd.2 h

theorem tenacityRunAux_ok {α : Type} (f : Nat → Except String α) (i n : Nat) (v : α)
    (h : f i = Except.ok v) : tenacityRunAux f i (n + 2) = (Except.ok v, i + 1) := by
  unfold tenacityRunAux
  rw [h]

theorem basic_process_with_retry_isOk (outcome : AgentOutcome) (name : String) :
    ∃ v, basic_process_with_retry outcome name = Except.ok v := by
  unfold basic_process_with_retry
  cases htb : basicTryBody outcome name with
  | ok v => exact ⟨v, rfl⟩
  | error msg => exact ⟨PyVal.dict (basicExceptHandler msg name), rfl⟩

theorem cost_process_with_retry_isOk (outcome : AgentOutcome) (name : String) :
    ∃ v, cost_process_with_retry outcome name = Except.ok v := by
  unfold cost_process_with_retry
  cases htb : costTryBody outcome name with
  | ok v => exact ⟨v, rfl⟩
  | error msg => exact ⟨PyVal.dict (costExceptHandler msg name), rfl⟩

theorem basicRetryRun_eval (agent : Nat → AgentOutcome) (name : String) (v : PyVal)
    (h : basic_process_with_retry (agent 0) name = Except.ok v) :
    basicRetryRun agent name = (Except.ok v, 1) := by
  unfold basicRetryRun
  exact tenacityRunAux_ok _ 0 3 v h

theorem costRetryRun_eval (agent : Nat → AgentOutcome) (name : String) (v : PyVal)
    (h : cost_process_with_retry (agent 0) name = Except.ok v) :
    costRetryRun agent name = (Except.ok v, 1) := by
  unfold costRetryRun
  exact tenacityRunAux_ok _ 0 1 v h

theorem basic_process_satellite_eval (agent : Nat → AgentOutcome) (name : String)
    (v : PyVal) (h : basic_process_with_retry (agent 0) name = Except.ok v) :
    basic_process_satellite agent name
      = Except.ok (alSet (basicEnsureDict v) "satellite_name" (Val.s name)) := by
  unfold basic_process_satellite
  rw [basicRetryRun_eval agent name v h]

theorem cost_process_satellite_eval (agent : Nat → AgentOutcome) (name : String)
    (v : PyVal) (h : cost_process_with_retry (agent 0) name = Except.ok v) :
    cost_process_satellite agent name
      = Except.ok (alSet (costEnsureDict v) "satellite_name" (Val.s name)) := by
  unfold cost_process_satellite
  rw [costRetryRun_eval agent name v h]

/-- Scenario A raw output of the spec: a fenced json block holding only
`altitude` and `altitude_source`. -/
def scenarioAOutput : String :=
  "```json\n\x7b\"altitude\": \"550\", \"altitude_source\": \"http://x\"\x7d\n```"

/-- An agent that returns the Scenario A output with an empty trace on every
attempt. -/
def scenarioAAgent : Nat → AgentOutcome :=
  fun _ => AgentOutcome.returnedDict scenarioAOutput []

/-- An agent that raises a rate-limit-style error on every attempt. -/
def rateLimitAgent : Nat → AgentOutcome :=
  fun _ => AgentOutcome.raised "429 Resource has been exhausted (check quota)."

/-- C1, counterexample.  For the spec's own Scenario A input (fenced json
block with only `altitude` and `altitude_source`, basic-info schema), the
pipeline returns a record with exactly three keys: the six remaining schema
fields are absent, not filled with `"NA"`, refuting the claimed key-set/NA
completion. -/
theorem claim_C1_counterexample :
    basic_process_satellite scenarioAAgent "SAT-1"
      = Except.ok [("altitude", Val.s "550"), ("altitude_source", Val.s "http://x"),
                   ("satellite_name", Val.s "SAT-1")]
    ∧ alGet? [("altitude", Val.s "550"), ("altitude_source", Val.s "http://x"),
              ("satellite_name", Val.s "SAT-1")] "orbital_life_years" = none := by
  exact ⟨rfl, rfl⟩

/-- C1, amended.  On the structured-parse path the record is exactly the
parsed mapping plus `satellite_name` (Scenario A yields three keys); the
key set equals the schema fields plus `satellite_name`, with `"NA"` fill,
only on the mining/fallback paths — e.g. whenever the agent raises, for every
message. -/
theorem claim_C1_theorem (name msg : String) :
    basic_process_satellite (fun _ => AgentOutcome.returnedDict scenarioAOutput []) name
      = Except.ok [("altitude", Val.s "550"), ("altitude_source", Val.s "http://x"),
                   ("satellite_name", Val.s name)]
    ∧ basic_process_satellite (fun _ => AgentOutcome.raised msg) name
      = Except.ok (alSet basicExtractInit "satellite_name" (Val.s name))
    ∧ (alSet basicExtractInit "satellite_name" (Val.s name)).map Prod.fst
      = basicFieldNames ++ ["satellite_name"] := by
  refine ⟨rfl, ?_, rfl⟩
  have hh : basicExceptHandler msg name = basicExtractInit := by
    simp only [basicExceptHandler]
    split
    · rfl
    · split
      · rfl
      · rfl
  have h2 : basic_process_with_retry (AgentOutcome.raised msg) name
      = Except.ok (PyVal.dict (basicExceptHandler msg name)) := rfl
  rw [hh] at h2
  rw [basic_process_satellite_eval _ name _ h2]
  rfl

/-- C2, code-bug evaluation.  With an agent that raises a rate-limit error on
every attempt, the pipeline makes exactly one invocation attempt (the
catch-all `except` inside `_process_with_retry` converts the exception into a
normal return, so the tenacity decorator never retries), and the final record
is the all-`"NA"` fallback with `satellite_name` and no `error` key —
contradicting the claimed five attempts and rate-limit-indicating `error`
field. -/
theorem claim_C2_theorem :
    basicAttempts rateLimitAgent "SAT-1" = 1
    ∧ ¬ basicAttempts rateLimitAgent "SAT-1" = 5
    ∧ basic_process_satellite rateLimitAgent "SAT-1"
      = Except.ok
          [("altitude", Val.s "NA"), ("altitude_source", Val.s "NA"),
           ("orbital_life_years", Val.s "NA"), ("orbital_life_source", Val.s "NA"),
           ("launch_orbit_classification", Val.s "NA"),
           ("orbit_classification_source", Val.s "NA"),
           ("number_of_payloads", Val.s "NA"), ("payloads_source", Val.s "NA"),
           ("satellite_name", Val.s "SAT-1")]
    ∧ alGet?
          [("altitude", Val.s "NA"), ("altitude_source", Val.s "NA"),
           ("orbital_life_years", Val.s "NA"), ("orbital_life_source", Val.s "NA"),
           ("launch_orbit_classification", Val.s "NA"),
           ("orbit_classification_source", Val.s "NA"),
           ("number_of_payloads", Val.s "NA"), ("payloads_source", Val.s "NA"),
           ("satellite_name", Val.s "SAT-1")] "error" = none := by
  exact ⟨rfl, by decide, rfl, rfl⟩

/-- C4.  For every sequence of agent outcomes (raising with any message,
returning a dict with any output and any — possibly malformed — trace, or
returning a non-dict) and every entity name, both `process_satellite`
pipelines return a record normally: no exception crosses the pipeline
boundary. -/
theorem claim_C4_theorem (agent : Nat → AgentOutcome) (name : String) :
    (∃ r, basic_process_satellite agent name = Except.ok r)
    ∧ (∃ r, cost_process_satellite agent name = Except.ok r) := by
  obtain ⟨v, hv⟩ := basic_process_with_retry_isOk (agent 0) name
  obtain ⟨w, hw⟩ := cost_process_with_retry_isOk (agent 0) name
  exact ⟨⟨_, basic_process_satellite_eval agent name v hv⟩,
         ⟨_, cost_process_satellite_eval agent name w hw⟩⟩

/-- C6.  Whenever the returned trace has at least 10 steps (the action-budget
cap), `_process_with_retry` takes the trace-mining path, whatever the final
output string contains. -/
theorem claim_C6_theorem (output : String) (steps : List Step) (name : String)
    (h : 10 ≤ steps.length) :
    basic_process_with_retry (AgentOutcome.returnedDict output steps) name
      = Except.ok (PyVal.dict (basic_extract_data_from_steps steps name)) := by
  unfold basic_process_with_retry basicTryBody basicHandleResponse
  simp [h]

/-- A ten-step trace (at the cap). -/
def tenSteps : List Step := List.replicate 10 (Step.pair "Tavily Search" (Obs.txt "searching"))

/-- C6, witness: a ten-step trace together with the well-formed Scenario A
final output still goes to mining. -/
theorem claim_C6_witness :
    10 ≤ tenSteps.length
    ∧ basic_process_with_retry (AgentOutcome.returnedDict scenarioAOutput tenSteps) "SAT-1"
      = Except.ok (PyVal.dict (basic_extract_data_from_steps tenSteps "SAT-1")) :=
  ⟨by decide, claim_C6_theorem scenarioAOutput tenSteps "SAT-1" (by decide)⟩

/-- Two observations both matching the `launch cost` trigger with different
amounts. -/
def costObsEarly : Step := Step.pair "Tavily Search" (Obs.txt "Launch cost: $100")

/-- The later of the two cost observations. -/
def costObsLate : Step := Step.pair "Tavily Search" (Obs.txt "Launch cost: $200")

/-- C3, counterexample.  In `CostBot._extract_data_from_steps`, a trace with
two observations both triggering the `launch cost` rule with different
amounts yields the value mined from the LATER observation: the rule assigns
unconditionally, so later observations do overwrite an already-filled field. -/
theorem claim_C3_counterexample :
    alGet? (cost_extract_data_from_steps [costObsEarly, costObsLate] "SAT-1") "launch_cost"
      = some (Val.s "$200")
    ∧ ¬ alGet? (cost_extract_data_from_steps [costObsEarly, costObsLate] "SAT-1") "launch_cost"
      = some (Val.s "$100") := by
  exact ⟨rfl, by decide⟩

/-- C3, amended.  First-match-wins holds for basic.py's mining (a field
already holding a non-`"NA"` value is never overwritten, for every record
state and observation), but cost.py's value-field rules are last-match-wins:
the two-observation launch-cost trace stores the later amount. -/
theorem claim_C3_theorem (r : Record) (obs : List Char) (name : String)
    (h1 : ¬ alGet? r "altitude" = some (Val.s "NA"))
    (h2 : ¬ alGet? r "launch_orbit_classification" = some (Val.s "NA")) :
    alGet? (basicMineStep r obs) "altitude" = alGet? r "altitude"
    ∧ alGet? (basicMineStep r obs) "launch_orbit_classification"
        = alGet? r "launch_orbit_classification"
    ∧ alGet? (cost_extract_data_from_steps [costObsEarly, costObsLate] name) "launch_cost"
      = some (Val.s "$200") := by
  refine ⟨?_, ?_, rfl⟩ <;> simp [basicMineStep, h1, h2]

/-- C3, witness for the amended theorem: a record whose `altitude` and
`launch_orbit_classification` are already filled is unchanged by an
observation matching both triggers. -/
theorem claim_C3_witness :
    alGet? (basicMineStep [("altitude", Val.s "550"),
        ("launch_orbit_classification", Val.s "LEO")] "orbit altitude 550 km leo".data)
      "altitude" = alGet? [("altitude", Val.s "550"),
        ("launch_orbit_classification", Val.s "LEO")] "altitude"
    ∧ alGet? (basicMineStep [("altitude", Val.s "550"),
        ("launch_orbit_classification", Val.s "LEO")] "orbit altitude 550 km leo".data)
      "launch_orbit_classification" = alGet? [("altitude", Val.s "550"),
        ("launch_orbit_classification", Val.s "LEO")] "launch_orbit_classification"
    ∧ alGet? (cost_extract_data_from_steps [costObsEarly, costObsLate] "SAT-1") "launch_cost"
      = some (Val.s "$200") :=
  claim_C3_theorem [("altitude", Val.s "550"), ("launch_orbit_classification", Val.s "LEO")]
    "orbit altitude 550 km leo".data "SAT-1" (by decide) (by decide)

/-- Exceptions (a step on which `len` raises) abort cost.py's mining loop:
the surrounding `except` always returns the `"Data extraction failed"`
fallback. -/
theorem costExtractLoop_unsized (steps : List Step) :
    ∀ r, Step.unsized ∈ steps → costExtractLoop r steps = none := by
  induction steps with
  | nil => intro r h; cases h
  | cons hd tl ih =>
    intro r h
    cases hd with
    | unsized => rfl
    | short =>
      have htl : Step.unsized ∈ tl := by
        rcases List.mem_cons.mp h with h1 | h1
        · exact absurd h1 (by decide)
        · exact h1
      exact ih r htl
    | pair a o =>
      have htl : Step.unsized ∈ tl := by
        rcases List.mem_cons.mp h with h1 | h1
        · exact absurd h1 (by simp)
        · exact h1
      cases o with
      | txt s => exact ih _ htl
      | nonStr => exact ih r htl

/-- C5, counterexample.  In `BasicInfoBot._extract_data_from_steps`, an
exception raised mid-loop (a step on which `len` raises, after an
observation already mined `altitude`) is swallowed but the function returns
the PARTIALLY filled record, not the all-`"NA"` fallback. -/
theorem claim_C5_counterexample :
    ¬ basic_extract_data_from_steps
        [Step.pair "Tavily Search" (Obs.txt "altitude 550 km"), Step.unsized] "SAT-1"
      = basic_create_fallback_response "Data extraction failed" "SAT-1"
    ∧ alGet? (basic_extract_data_from_steps
        [Step.pair "Tavily Search" (Obs.txt "altitude 550 km"), Step.unsized] "SAT-1")
        "altitude" = some (Val.s "Partial") := by
  exact ⟨by decide, rfl⟩

/-- C5, amended.  Mining exceptions never surface: cost.py degrades to the
all-`"NA"` fallback annotated with an `error` field whenever an exception
occurs anywhere in the trace, while basic.py returns whatever was extracted
before the exception (possibly partially filled, not necessarily all-`"NA"`). -/
theorem claim_C5_theorem (steps rest : List Step) (r : Record) (name : String)
    (h : Step.unsized ∈ steps) :
    cost_extract_data_from_steps steps name
      = cost_create_fallback_response "Data extraction failed" name
    ∧ basicExtractLoop r (Step.unsized :: rest) = r := by
  constructor
  · unfold cost_extract_data_from_steps
    rw [costExtractLoop_unsized steps _ h]
  · rfl

/-- C5, witness for the amended theorem. -/
theorem claim_C5_witness :
    cost_extract_data_from_steps [costObsEarly, Step.unsized] "SAT-1"
      = cost_create_fallback_response "Data extraction failed" "SAT-1"
    ∧ basicExtractLoop basicExtractInit [Step.unsized, Step.short] = basicExtractInit :=
  claim_C5_theorem [costObsEarly, Step.unsized] [Step.short] basicExtractInit "SAT-1"
    (by decide)

/-- After `append_satellite_data`, the per-topic lookup returns exactly the
entry just stored. -/
theorem get_after_append (s : Store) (nm ty : String) (d : Record) (now : String)
    (hty : ¬ ty = "") :
    get_satellite_data (append_satellite_data s nm ty d now) nm (some ty)
      = GetResult.entry ⟨d, now⟩ := by
  unfold append_satellite_data get_satellite_data
  rw [alGet?_alSet_self]
  simp only [hty, if_false, alGet?_alSet_self]

/-- C8.  Storing a record twice under the same (entity, topic) key overwrites
wholesale: the lookup after `put(e,t,r1); put(e,t,r2)` yields exactly `r2`
(with its own timestamp), with no field of `r1` merged in. -/
theorem claim_C8_theorem (s : Store) (e t : String) (r1 r2 : Record)
    (ts1 ts2 : String) (ht : ¬ t = "") :
    get_satellite_data
        (append_satellite_data (append_satellite_data s e t r1 ts1) e t r2 ts2)
        e (some t)
      = GetResult.entry ⟨r2, ts2⟩ :=
  get_after_append (append_satellite_data s e t r1 ts1) e t r2 ts2 ht

/-- C8, witness: overwriting on the empty store. -/
theorem claim_C8_witness :
    get_satellite_data
        (append_satellite_data
          (append_satellite_data [] "AstroSat" "cost" [("launch_cost", Val.s "$1")] "t1")
          "AstroSat" "cost" [("launch_vehicle", Val.s "PSLV")] "t2")
        "AstroSat" (some "cost")
      = GetResult.entry ⟨[("launch_vehicle", Val.s "PSLV")], "t2"⟩ :=
  claim_C8_theorem [] "AstroSat" "cost" [("launch_cost", Val.s "$1")]
    [("launch_vehicle", Val.s "PSLV")] "t1" "t2" (by decide)

/-- C9.  If an entity has exactly one stored topic, deleting that topic
removes the entity from `get_all_satellites` entirely (stores built through
the manager's operations have duplicate-free keys, captured by the `Nodup`
hypothesis). -/
theorem claim_C9_theorem (s : Store) (nm sec : String) (e : Entry)
    (hnd : (s.map Prod.fst).Nodup) (h : alGet? s nm = some [(sec, e)]) :
    ¬ nm ∈ get_all_satellites (delete_satellite_section s nm sec).1 := by
  unfold delete_satellite_section get_all_satellites
  rw [h]
  simp only [alGet?, if_pos rfl, Option.isSome_some, if_true, alDel, List.isEmpty_cons,
    List.isEmpty_nil]
  exact not_mem_keys_alDel s nm hnd

/-- C9, witness: a one-entity, one-topic store becomes empty. -/
theorem claim_C9_witness :
    ¬ "AstroSat" ∈ get_all_satellites
        (delete_satellite_section
          [("AstroSat", [("cost", ⟨[("launch_cost", Val.s "$1")], "t1"⟩)])]
          "AstroSat" "cost").1 :=
  claim_C9_theorem [("AstroSat", [("cost", ⟨[("launch_cost", Val.s "$1")], "t1"⟩)])]
    "AstroSat" "cost" ⟨[("launch_cost", Val.s "$1")], "t1"⟩ (by decide) (by decide)

/-- C10.  Lookups of an absent entity return `None` (both the whole-entity
and the per-topic form), and a per-topic lookup of a present entity with an
absent topic returns `None`; the embedding of `get_satellite_data` returns no
new store, matching the mutation-free source. -/
theorem claim_C10_theorem (s : Store) (nm t : String) (m : TopicMap) :
    (alGet? s nm = none →
      get_satellite_data s nm none = GetResult.none
      ∧ get_satellite_data s nm (some t) = GetResult.none)
    ∧ (alGet? s nm = some m → ¬ t = "" → alGet? m t = none →
      get_satellite_data s nm (some t) = GetResult.none) := by
  constructor
  · intro h
    unfold get_satellite_data
    rw [h]
    exact ⟨rfl, rfl⟩
  · intro hm ht hmt
    unfold get_satellite_data
    rw [hm]
    simp only [ht, if_false, hmt]

/-- C10, witness: lookups on a one-entity store. -/
theorem claim_C10_witness :
    (get_satellite_data [("AstroSat", [("cost", ⟨[], "t1"⟩)])] "Cartosat" none
        = GetResult.none
      ∧ get_satellite_data [("AstroSat", [("cost", ⟨[], "t1"⟩)])] "Cartosat" (some "cost")
        = GetResult.none)
    ∧ get_satellite_data [("AstroSat", [("cost", ⟨[], "t1"⟩)])] "AstroSat" (some "users")
        = GetResult.none := by
  constructor
  · exact (claim_C10_theorem [("AstroSat", [("cost", ⟨[], "t1"⟩)])] "Cartosat" "cost"
      [("cost", ⟨[], "t1"⟩)]).1 (by decide)
  · exact (claim_C10_theorem [("AstroSat", [("cost", ⟨[], "t1"⟩)])] "AstroSat" "users"
      [("cost", ⟨[], "t1"⟩)]).2 (by decide) (by decide) (by decide)

theorem take_append_len {α : Type} (A X : List α) (m : Nat) :
    (A ++ X).take (A.length + m) = A ++ X.take m := by
  induction A with
  | nil => simp
  | cons a A ih => simp [List.length_cons, Nat.add_right_comm, ih]

theorem drop_append_len {α : Type} (A X : List α) :
    (A ++ X).drop A.length = X := by
  induction A with
  | nil => simp
  | cons a A ih => simpa using ih

theorem take_len_append {α : Type} (A X : List α) : (A ++ X).take A.length = A := by
  have h := take_append_len A X 0
  simpa using h

theorem isPrefixOf_append_self (pat rest : List Char) :
    pat.isPrefixOf (pat ++ rest) = true := by
  induction pat with
  | nil => simp [List.isPrefixOf]
  | cons c pat ih => simp [List.isPrefixOf, ih]

theorem findSub_of_isPrefixOf (pat cs : List Char) (h : pat.isPrefixOf cs = true) :
    findSub pat cs = some 0 := by
  cases cs <;> simp [findSub, h]

/-- Scanning for a pattern that starts with `h0` skips over any prefix free
of `h0`. -/
theorem findSub_append_of_head_notin (h0 : Char) (pt pre rest : List Char)
    (hpre : ∀ c ∈ pre, ¬ c = h0) :
    findSub (h0 :: pt) (pre ++ rest)
      = (findSub (h0 :: pt) rest).map (· + pre.length) := by
  induction pre with
  | nil =>
    cases hfs : findSub (h0 :: pt) rest <;> simp [hfs]
  | cons c pre ih =>
    have hc : ¬ c = h0 := hpre c (List.mem_cons_self c pre)
    have hbeq : (h0 == c) = false := by
      simp
      intro hcontra
      exact hc hcontra.symm
    have hnp : (h0 :: pt).isPrefixOf (c :: (pre ++ rest)) = false := by
      simp [List.isPrefixOf, hbeq]
    rw [List.cons_append, findSub]
    rw [hnp]
    simp only [Bool.false_eq_true, if_false]
    rw [ih (fun c2 hc2 => hpre c2 (List.mem_cons_of_mem c hc2))]
    cases findSub (h0 :: pt) rest <;> simp [Nat.add_assoc, List.length_cons]

/-- The first occurrence of a pattern starting with `h0`, placed right after
a prefix free of `h0`, is found exactly at the boundary. -/
theorem findSub_boundary (h0 : Char) (pt pre rest : List Char)
    (hpre : ∀ c ∈ pre, ¬ c = h0) (hp : (h0 :: pt).isPrefixOf rest = true) :
    findSub (h0 :: pt) (pre ++ rest) = some pre.length := by
  rw [findSub_append_of_head_notin h0 pt pre rest hpre, findSub_of_isPrefixOf _ _ hp]
  simp

/-- Below the iteration cap, an output containing a fenced `json` block is
handled by the fenced-block branch. -/
theorem basicHandleResponse_fenced (output : String) (steps : List Step) (name : String)
    (h10 : ¬ 10 ≤ steps.length)
    (hcont : containsSub output.data "```json".data = true) :
    basicHandleResponse output steps name
      = match jsonLoadsFlat (extractFencedJson output.data) with
        | some r => Except.ok (PyVal.dict r)
        | none => Except.error jsonDecodeErrMsg := by
  unfold basicHandleResponse
  rw [if_neg h10, if_pos hcont]

/-- C7.  For every raw output of the shape `pre ++ "```json" ++ body ++
"```" ++ post` (with `pre` and `body` free of backticks, so the block shown
is the first one), the fenced-block extraction returns exactly the stripped
`body`, and `_process_with_retry`'s result is a function of `body` alone:
the trailing free text `post` (which may itself contain further fenced
blocks) contributes nothing. -/
theorem claim_C7_theorem (pre body post : List Char) (name : String)
    (hpre : ∀ c ∈ pre, ¬ c = btick) (hbody : ∀ c ∈ body, ¬ c = btick) :
    extractFencedJson (pre ++ "```json".data ++ body ++ "```".data ++ post) = stripL body
    ∧ basic_process_with_retry
        (AgentOutcome.returnedDict
          (String.mk (pre ++ "```json".data ++ body ++ "```".data ++ post)) []) name
      = (match jsonLoadsFlat (stripL body) with
         | some r => Except.ok (PyVal.dict r)
         | none => Except.ok (PyVal.dict (basicExceptHandler jsonDecodeErrMsg name))) := by
  have hre : pre ++ "```json".data ++ body ++ "```".data ++ post
      = pre ++ ("```json".data ++ (body ++ ("```".data ++ post))) := by
    simp [List.append_assoc]
  have hmdj : "```json".data = btick :: "``json".data := by decide
  have hf3 : "```".data = btick :: "``".data := by decide
  have hfind1 : findSub "```json".data
      (pre ++ ("```json".data ++ (body ++ ("```".data ++ post)))) = some pre.length := by
    rw [hmdj]
    exact findSub_boundary btick "``json".data pre _ hpre (isPrefixOf_append_self _ _)
  have hassoc : pre ++ ("```json".data ++ (body ++ ("```".data ++ post)))
      = (pre ++ "```json".data) ++ (body ++ ("```".data ++ post)) :=
    (List.append_assoc _ _ _).symm
  have hlen : (pre ++ "```json".data).length = pre.length + 7 := by
    rw [List.length_append]
    rfl
  have hdrop : (pre ++ ("```json".data ++ (body ++ ("```".data ++ post)))).drop (pre.length + 7)
      = body ++ ("```".data ++ post) := by
    rw [hassoc, ← hlen]
    exact drop_append_len _ _
  have hfind2 : findSub "```".data (body ++ ("```".data ++ post)) = some body.length := by
    rw [hf3]
    exact findSub_boundary btick "``".data body _ hbody (isPrefixOf_append_self _ _)
  have hpff : pyFindFrom (pre ++ ("```json".data ++ (body ++ ("```".data ++ post))))
      "```".data (pre.length + 7) = some (body.length + (pre.length + 7)) := by
    unfold pyFindFrom
    rw [hdrop, hfind2]
    rfl
  have hslice : pySlice (pre ++ ("```json".data ++ (body ++ ("```".data ++ post))))
      (pre.length + 7) ((body.length + (pre.length + 7) : Nat) : Int) = body := by
    unfold pySlice
    have hneg : ¬ (((body.length + (pre.length + 7) : Nat) : Int) < 0) :=
      Int.not_lt.mpr (Int.natCast_nonneg _)
    simp only [hneg, if_false, Int.toNat_natCast]
    rw [hassoc, Nat.add_comm body.length (pre.length + 7), ← hlen, take_append_len,
      take_len_append, drop_append_len]
  have hext : extractFencedJson (pre ++ "```json".data ++ body ++ "```".data ++ post)
      = stripL body := by
    rw [hre]
    have hgoal : extractFencedJson (pre ++ ("```json".data ++ (body ++ ("```".data ++ post))))
        = stripL (pySlice (pre ++ ("```json".data ++ (body ++ ("```".data ++ post))))
            (((findSub "```json".data
                (pre ++ ("```json".data ++ (body ++ ("```".data ++ post))))).getD 0) + 7)
            (match pyFindFrom (pre ++ ("```json".data ++ (body ++ ("```".data ++ post))))
                "```".data
                (((findSub "```json".data
                    (pre ++ ("```json".data ++ (body ++ ("```".data ++ post))))).getD 0) + 7) with
             | some j => (j : Int)
             | none => -1)) := rfl
    rw [hgoal, hfind1, Option.getD_some, hpff]
    exact congrArg stripL hslice
  refine ⟨hext, ?_⟩
  have hdata : (String.mk (pre ++ "```json".data ++ body ++ "```".data ++ post)).data
      = pre ++ "```json".data ++ body ++ "```".data ++ post := rfl
  have hcont : containsSub
      (String.mk (pre ++ "```json".data ++ body ++ "```".data ++ post)).data
      "```json".data = true := by
    rw [hdata]
    unfold containsSub
    rw [hre, hfind1]
    rfl
  have htb := basicHandleResponse_fenced
    (String.mk (pre ++ "```json".data ++ body ++ "```".data ++ post)) [] name
    (by decide) hcont
  rw [hdata, hext] at htb
  show (match basicTryBody (AgentOutcome.returnedDict
      (String.mk (pre ++ "```json".data ++ body ++ "```".data ++ post)) []) name with
    | Except.ok v => Except.ok v
    | Except.error msg => Except.ok (PyVal.dict (basicExceptHandler msg name))) = _
  have htb2 : basicTryBody (AgentOutcome.returnedDict
      (String.mk (pre ++ "```json".data ++ body ++ "```".data ++ post)) []) name
      = match jsonLoadsFlat (stripL body) with
        | some r => Except.ok (PyVal.dict r)
        | none => Except.error jsonDecodeErrMsg := htb
  rw [htb2]
  cases hj : jsonLoadsFlat (stripL body) <;> rfl

/-- C7, witness: leading text, a fenced block, and trailing free text. -/
theorem claim_C7_witness :
    extractFencedJson ("Answer: ".data ++ "```json".data
        ++ "\n\x7b\"altitude\": \"550\"\x7d\n".data ++ "```".data ++ " trailing text".data)
      = stripL "\n\x7b\"altitude\": \"550\"\x7d\n".data
    ∧ basic_process_with_retry
        (AgentOutcome.returnedDict
          (String.mk ("Answer: ".data ++ "```json".data
            ++ "\n\x7b\"altitude\": \"550\"\x7d\n".data ++ "```".data
            ++ " trailing text".data)) [])
        "SAT-1"
      = (match jsonLoadsFlat (stripL "\n\x7b\"altitude\": \"550\"\x7d\n".data) with
         | some r => Except.ok (PyVal.dict r)
         | none => Except.ok (PyVal.dict (basicExceptHandler jsonDecodeErrMsg "SAT-1"))) :=
  claim_C7_theorem "Answer: ".data "\n\x7b\"altitude\": \"550\"\x7d\n".data
    " trailing text".data "SAT-1" (by decide) (by decide)
